import Mathlib

/-!
Verification of the retrieval-augmented answer-selection pipeline of the
Help-Desk / GreenBot repository.

The repository snapshot contains the frontend (frontend/script.js), the
startup scripts and the documentation, but the backend decision core
(backend/rag_api_server.py, referenced by the startup scripts and the
README) is not part of the snapshot.  The pipeline components below —
Knowledge Index, Confidence Scorer, Answer Selector and Feedback
Recorder — are therefore modelled from the specification's contracts
(spec sections 3, 4.1–4.4 and 7).  The session-analytics state at the
end of the file is embedded directly from frontend/script.js.

All numeric quantities are rationals; JS session counters are naturals
(they are only ever incremented).
-/

namespace HelpDesk

/-- Modelled from the spec: Knowledge Record (spec section 3); the backend
corpus code (backend/rag_api_server.py) is absent from the snapshot. -/
structure KnowledgeRecord where
  id : String
  question_or_topic : String
  answer_text : String
  category : String
  weight : ℚ
  deriving Repr, DecidableEq

/-- Modelled from the spec: ephemeral Match Candidate (spec section 3).
The `idx` field is the position at which the record was added to the
corpus (larger = more recently added), used only for tie-breaking. -/
structure Candidate where
  record : KnowledgeRecord
  idx : Nat
  raw_score : ℚ
  deriving Repr, DecidableEq

/-- Ranking relation used to order candidates: `candLE a b` holds when `a`
may be placed before `b` — higher raw score first, ties broken by higher
weight, then by the most recently added record (spec section 4.1). -/
def candLE (a b : Candidate) : Prop :=
  b.raw_score < a.raw_score ∨
    (b.raw_score = a.raw_score ∧
      (b.record.weight < a.record.weight ∨
        (b.record.weight = a.record.weight ∧ b.idx ≤ a.idx)))

instance : DecidableRel candLE := by
  intro a b
  unfold candLE
  infer_instance

instance : IsTotal Candidate candLE := by
  constructor
  intro a b
  rcases lt_trichotomy a.raw_score b.raw_score with h | h | h
  · exact Or.inr (Or.inl h)
  · rcases lt_trichotomy a.record.weight b.record.weight with g | g | g
    · exact Or.inr (Or.inr ⟨h, Or.inl g⟩)
    · rcases Nat.le_total b.idx a.idx with l | l
      · exact Or.inl (Or.inr ⟨h.symm, Or.inr ⟨g.symm, l⟩⟩)
      · exact Or.inr (Or.inr ⟨h, Or.inr ⟨g, l⟩⟩)
    · exact Or.inl (Or.inr ⟨h.symm, Or.inl g⟩)
  · exact Or.inl (Or.inl h)

instance : IsTrans Candidate candLE := by
  constructor
  intro a b c hab hbc
  rcases hab with h1 | ⟨h1, h2⟩
  · rcases hbc with g1 | ⟨g1, _⟩
    · exact Or.inl (lt_trans g1 h1)
    · exact Or.inl (g1 ▸ h1)
  · rcases hbc with g1 | ⟨g1, g2⟩
    · exact Or.inl (h1 ▸ g1)
    · refine Or.inr ⟨g1.trans h1, ?_⟩
      rcases h2 with h2 | ⟨h2a, h2b⟩
      · rcases g2 with g2 | ⟨g2a, _⟩
        · exact Or.inl (lt_trans g2 h2)
        · exact Or.inl (g2a ▸ h2)
      · rcases g2 with g2 | ⟨g2a, g2b⟩
        · exact Or.inl (h2a ▸ g2)
        · exact Or.inr ⟨g2a.trans h2a, le_trans g2b h2b⟩

/-- Modelled from the spec: query trimming — removal of leading and
trailing whitespace — used by the validation step (spec section 4.3
step 1). -/
def trimmed (s : String) : String :=
  ⟨((s.data.dropWhile Char.isWhitespace).reverse.dropWhile
      Char.isWhitespace).reverse⟩

/-- Modelled from the spec: the matching algorithm itself is abstract
(spec section 9 is agnostic to it), so the raw-score function is a
parameter; each corpus record becomes a scored candidate. -/
def candidatesOf (score : String → KnowledgeRecord → ℚ)
    (corpus : List KnowledgeRecord) (query : String) : List Candidate :=
  corpus.enum.map (fun p => ⟨p.2, p.1, score query p.2⟩)

/-- Modelled from the spec: the ranked candidate list of the Knowledge
Index — sorted highest raw score first with the deterministic tie-break,
truncated to at most `k` entries (spec section 4.1). -/
def searchRanked (score : String → KnowledgeRecord → ℚ)
    (corpus : List KnowledgeRecord) (query : String) (k : Nat) :
    List Candidate :=
  ((candidatesOf score corpus query).insertionSort candLE).take k

inductive IndexError
  | InvalidQuery
  deriving Repr, DecidableEq

/-- Modelled from the spec: `search(query, k)` of the Knowledge Index
(spec section 4.1); rejects queries that are empty after trimming. -/
def search (score : String → KnowledgeRecord → ℚ)
    (corpus : List KnowledgeRecord) (query : String) (k : Nat) :
    Except IndexError (List Candidate) :=
  if trimmed query = "" then Except.error IndexError.InvalidQuery
  else Except.ok (searchRanked score corpus query k)

/-- The Knowledge Index as explicit state, to express that `search` has
no side effect on it. -/
structure KnowledgeIndex where
  corpus : List KnowledgeRecord
  deriving Repr, DecidableEq

/-- State-passing form of `search`: returns the result together with the
(unchanged) index. -/
def searchSt (score : String → KnowledgeRecord → ℚ)
    (index : KnowledgeIndex) (query : String) (k : Nat) :
    Except IndexError (List Candidate) × KnowledgeIndex :=
  (search score index.corpus query k, index)

/-! ## Confidence Scorer (spec section 4.2) -/

def scoreFloor : ℚ := 0

def scoreCeiling : ℚ := 10

/-- Modelled from the spec: penalty factor for very short queries matching
very long records (spec section 4.2); a factor in (0, 1]. -/
def lengthPenaltyFactor (query_length match_text_length : Nat) : ℚ :=
  if 20 * query_length < match_text_length then mkRat 1 2 else 1

/-- Modelled from the spec: `normalize(raw_score, query_length,
match_text_length)` of the Confidence Scorer (spec section 4.2) —
deterministic, saturating at the configured ceiling and floor, linear
in between with the short-query penalty applied. -/
def normalize (raw_score : ℚ) (query_length match_text_length : Nat) : ℚ :=
  if scoreCeiling ≤ raw_score then 1
  else if raw_score ≤ scoreFloor then 0
  else (raw_score - scoreFloor) * lengthPenaltyFactor query_length match_text_length
    / (scoreCeiling - scoreFloor)

inductive Tier
  | high
  | medium
  | low
  deriving Repr, DecidableEq

def highThreshold : ℚ := mkRat 3 4

def mediumThreshold : ℚ := mkRat 9 20

/-- Modelled from the spec: tier mapping of the Confidence Scorer
(spec section 4.2). -/
def tierOf (confidence : ℚ) : Tier :=
  if highThreshold ≤ confidence then Tier.high
  else if mediumThreshold ≤ confidence then Tier.medium
  else Tier.low

/-! ## Answer Selector (spec section 4.3) -/

inductive Method
  | direct_lookup
  | augmented
  | generative_fallback
  deriving Repr, DecidableEq

/-- Modelled from the spec: the Answer Result returned to the caller
(spec section 3); `processing_time` is wall-clock time and is omitted. -/
structure AnswerResult where
  text : String
  confidence : ℚ
  method : Method
  source_record_id : Option String
  deriving Repr, DecidableEq

inductive AnswerError
  | InvalidQuery
  | ServiceUnavailable
  deriving Repr, DecidableEq

instance {ε α : Type} [DecidableEq ε] [DecidableEq α] :
    DecidableEq (Except ε α) := fun a b =>
  match a, b with
  | Except.ok x, Except.ok y =>
      if h : x = y then isTrue (by rw [h]) else isFalse (by simp [h])
  | Except.ok _, Except.error _ => isFalse (by simp)
  | Except.error _, Except.ok _ => isFalse (by simp)
  | Except.error x, Except.error y =>
      if h : x = y then isTrue (by rw [h]) else isFalse (by simp [h])

/-- Modelled from the spec: fixed conservative default confidence for
generative fallback (spec section 4.3 step 3). -/
def fallbackConfidence : ℚ := mkRat 3 10

/-- The external language-model collaborator: prompt and optional
retrieved context in, generated text out; `none` models a timeout or a
`ModelError` (spec section 6). -/
abbrev ModelCall := String → Option String → Option String

/-- Modelled from the spec: steps 4–7 of the Answer Selector on the top
candidate, given its normalized confidence (spec section 4.3): high
tier returns the stored answer verbatim, medium tier augments
(degrading to direct lookup on model failure), low tier defers to
generative fallback with the weak hint (again degrading to direct
lookup on model failure). -/
def selectByTier (llm : ModelCall) (query : String) (top : Candidate)
    (conf : ℚ) : Except AnswerError AnswerResult :=
  match tierOf conf with
  | Tier.high =>
      Except.ok { text := top.record.answer_text, confidence := conf,
                  method := Method.direct_lookup,
                  source_record_id := some top.record.id }
  | Tier.medium =>
      match llm query (some top.record.answer_text) with
      | some t =>
          Except.ok { text := t, confidence := conf,
                      method := Method.augmented,
                      source_record_id := some top.record.id }
      | none =>
          Except.ok { text := top.record.answer_text, confidence := conf,
                      method := Method.direct_lookup,
                      source_record_id := some top.record.id }
  | Tier.low =>
      match llm query (some top.record.answer_text) with
      | some t =>
          Except.ok { text := t, confidence := fallbackConfidence,
                      method := Method.generative_fallback,
                      source_record_id := none }
      | none =>
          Except.ok { text := top.record.answer_text, confidence := conf,
                      method := Method.direct_lookup,
                      source_record_id := some top.record.id }

/-- Modelled from the spec: the per-candidate selection step — the
confidence is the scorer's output on the candidate's raw score, the
trimmed query length and the stored answer length (spec sections 4.2
and 4.3). -/
def answerTop (llm : ModelCall) (query : String) (top : Candidate) :
    Except AnswerError AnswerResult :=
  selectByTier llm query top
    (normalize top.raw_score (trimmed query).length top.record.answer_text.length)

/-- Modelled from the spec: selection over the ranked candidate list —
step 3 (pure generative fallback, `ServiceUnavailable` when the model
also fails) when no candidate was retrieved, otherwise steps 4–7 on the
top candidate (spec section 4.3). -/
def answerRanked (llm : ModelCall) (query : String)
    (cands : List Candidate) : Except AnswerError AnswerResult :=
  match cands with
  | [] =>
      match llm query none with
      | some t =>
          Except.ok { text := t, confidence := fallbackConfidence,
                      method := Method.generative_fallback,
                      source_record_id := none }
      | none => Except.error AnswerError.ServiceUnavailable
  | top :: _ => answerTop llm query top

/-- Modelled from the spec: `answer(query)` of the Answer Selector
(spec section 4.3); the backend implementing it
(backend/rag_api_server.py) is absent from the snapshot.  Validates
the query, retrieves the top `k = 3` candidates, then selects. -/
def answer (llm : ModelCall) (score : String → KnowledgeRecord → ℚ)
    (corpus : List KnowledgeRecord) (query : String) :
    Except AnswerError AnswerResult :=
  if trimmed query = "" then Except.error AnswerError.InvalidQuery
  else answerRanked llm query (searchRanked score corpus query 3)

/-! ## Feedback Recorder (spec sections 4.1 and 4.4) -/

def weightFloor : ℚ := mkRat 1 10

def weightCeiling : ℚ := 10

def clampWeight (w : ℚ) : ℚ := max weightFloor (min weightCeiling w)

/-- Modelled from the spec: `adjust_weight(record_id, delta)` of the
Knowledge Index (spec section 4.1); clamps into the configured band and
is a no-op on an unknown id. -/
def adjust_weight (corpus : List KnowledgeRecord) (record_id : String)
    (delta : ℚ) : List KnowledgeRecord :=
  corpus.map (fun r =>
    if r.id = record_id then { r with weight := clampWeight (r.weight + delta) }
    else r)

inductive Rating
  | positive
  | negative
  deriving Repr, DecidableEq

/-- Modelled from the spec: Feedback Event (spec section 3). -/
structure FeedbackEvent where
  answer_text : String
  question_text : String
  rating : Rating
  timestamp : Nat
  deriving Repr, DecidableEq

/-- Modelled from the spec: fixed configured feedback delta
(spec section 4.4). -/
def feedbackDelta : ℚ := mkRat 1 20

/-- Modelled from the spec: best-effort resolution of a feedback event
back to the originating record, by exact match on the answer text
(spec section 4.4). -/
def resolveRecordId (corpus : List KnowledgeRecord) (e : FeedbackEvent) :
    Option String :=
  (corpus.find? (fun r => r.answer_text == e.answer_text)).map (fun r => r.id)

/-- Modelled from the spec: `record(event)` of the Feedback Recorder
(spec section 4.4); a logged no-op when the event resolves to no
record, otherwise a clamped weight adjustment. -/
def record (corpus : List KnowledgeRecord) (e : FeedbackEvent) :
    List KnowledgeRecord :=
  match resolveRecordId corpus e with
  | none => corpus
  | some rid =>
      adjust_weight corpus rid
        (match e.rating with
         | Rating.positive => feedbackDelta
         | Rating.negative => -feedbackDelta)

/-- Ordering property promised by the search contract: earlier candidates
have higher raw score; on equal raw scores the higher weight comes
first, and on equal weights the more recently added record (larger
`idx`) comes first (spec section 4.1). -/
def tieBreakOrdered (a b : Candidate) : Prop :=
  b.raw_score ≤ a.raw_score ∧
    (b.raw_score = a.raw_score →
      b.record.weight ≤ a.record.weight ∧
        (b.record.weight = a.record.weight → b.idx ≤ a.idx))

/-- Concrete record used by witnesses, taken from the spec's direct-lookup
scenario (spec section 8). -/
def recAdm : KnowledgeRecord :=
  ⟨"adm-1", "What are admission requirements?",
    "Submit transcripts and SAT scores.", "admissions", 1⟩

/-- Concrete record used by witnesses for the degraded-generation
scenario. -/
def recFee : KnowledgeRecord :=
  ⟨"fee-1", "How do I pay fees?", "Pay online.", "fees", 1⟩

/-! ## Session analytics state, embedded from frontend/script.js -/

inductive FbRating
  | like
  | dislike
  deriving Repr, DecidableEq

/-- Per-message feedback-button state: which button currently carries the
`active` class (frontend/script.js, handleFeedback). -/
structure MessageFeedback where
  activeRating : Option FbRating
  deriving Repr, DecidableEq

/-- Session counters of the GreenBot class (frontend/script.js
constructor): `positiveFeedback` and `negativeFeedback`. -/
structure SessionStats where
  positiveFeedback : Nat
  negativeFeedback : Nat
  deriving Repr, DecidableEq

/-- A chat session: the counters plus the feedback-button state of each
bot message. -/
structure ChatSession where
  stats : SessionStats
  messages : List MessageFeedback
  deriving Repr, DecidableEq

/-- Embedded from frontend/script.js, GreenBot.handleFeedback (lines
430–466): every click clears the message's previous active button, marks
the clicked one active, and unconditionally increments the counter of
the clicked rating; nothing is ever decremented. -/
def handleFeedback (s : ChatSession) (msgIdx : Nat) (t : FbRating) :
    ChatSession :=
  { stats :=
      { positiveFeedback :=
          s.stats.positiveFeedback + (if t = FbRating.like then 1 else 0),
        negativeFeedback :=
          s.stats.negativeFeedback + (if t = FbRating.dislike then 1 else 0) },
    messages := s.messages.set msgIdx { activeRating := some t } }

/-! ## Helper lemmas -/

lemma mkRat_eq_div (n : ℤ) (d : ℕ) : (mkRat n d : ℚ) = (n : ℚ) / (d : ℚ) := by
  rw [Rat.mkRat_eq_divInt, Rat.divInt_eq_div]
  norm_num

lemma mkRat_half_eq : (mkRat 1 2 : ℚ) = 1/2 := by
  rw [Rat.mkRat_eq_divInt]
  norm_num [Rat.divInt_eq_div]

lemma tierOf_eq_high {c : ℚ} (h : highThreshold ≤ c) : tierOf c = Tier.high := by
  unfold tierOf
  rw [if_pos h]

lemma selectByTier_source_iff (llm : ModelCall) (query : String)
    (top : Candidate) (conf : ℚ) (r : AnswerResult)
    (h : selectByTier llm query top conf = Except.ok r) :
    (r.source_record_id ≠ none ↔ r.method ≠ Method.generative_fallback) := by
  unfold selectByTier at h
  split at h
  · cases h
    simp
  · split at h
    · cases h
      simp
    · cases h
      simp
  · split at h
    · cases h
      simp
    · cases h
      simp

lemma selectByTier_model_down (llm : ModelCall) (query : String)
    (top : Candidate) (conf : ℚ)
    (hm : llm query (some top.record.answer_text) = none) :
    selectByTier llm query top conf =
      Except.ok { text := top.record.answer_text, confidence := conf,
                  method := Method.direct_lookup,
                  source_record_id := some top.record.id } := by
  unfold selectByTier
  split
  · rfl
  · rw [hm]
  · rw [hm]

lemma lengthPenaltyFactor_pos (q m : Nat) : 0 < lengthPenaltyFactor q m := by
  unfold lengthPenaltyFactor
  split
  · rw [mkRat_half_eq]
    norm_num
  · norm_num

lemma lengthPenaltyFactor_le_one (q m : Nat) : lengthPenaltyFactor q m ≤ 1 := by
  unfold lengthPenaltyFactor
  split
  · rw [mkRat_half_eq]
    norm_num
  · norm_num

lemma normalize_nonneg (r : ℚ) (q m : Nat) : 0 ≤ normalize r q m := by
  have hf := lengthPenaltyFactor_pos q m
  unfold normalize
  simp only [scoreFloor, scoreCeiling, sub_zero]
  split_ifs with h1 h2
  · norm_num
  · norm_num
  · apply div_nonneg _ (by norm_num)
    apply mul_nonneg (by linarith) (by linarith)

lemma normalize_le_one (r : ℚ) (q m : Nat) : normalize r q m ≤ 1 := by
  have hf := lengthPenaltyFactor_pos q m
  have hf1 := lengthPenaltyFactor_le_one q m
  unfold normalize
  simp only [scoreFloor, scoreCeiling, sub_zero]
  split_ifs with h1 h2
  · norm_num
  · norm_num
  · rw [div_le_one (by norm_num : (0:ℚ) < 10)]
    calc r * lengthPenaltyFactor q m ≤ r * 1 :=
          mul_le_mul_of_nonneg_left hf1 (by linarith)
      _ = r := mul_one r
      _ ≤ 10 := by linarith

lemma normalize_mono {a b : ℚ} (q m : Nat) (hab : b ≤ a) :
    normalize b q m ≤ normalize a q m := by
  have hf := lengthPenaltyFactor_pos q m
  have hf1 := lengthPenaltyFactor_le_one q m
  unfold normalize
  simp only [scoreFloor, scoreCeiling, sub_zero]
  split_ifs with h1 h2 h3 h4 h5 h6 h7
  all_goals try norm_num
  all_goals try linarith
  · apply div_nonneg _ (by norm_num)
    apply mul_nonneg (by linarith) (by linarith)
  · rw [div_le_one (by norm_num : (0:ℚ) < 10)]
    calc b * lengthPenaltyFactor q m ≤ b * 1 :=
          mul_le_mul_of_nonneg_left hf1 (by linarith)
      _ = b := mul_one b
      _ ≤ 10 := by linarith
  · rw [div_le_div_iff₀ (by norm_num) (by norm_num)]
    have : b * lengthPenaltyFactor q m ≤ a * lengthPenaltyFactor q m :=
      mul_le_mul_of_nonneg_right hab (by linarith)
    nlinarith

lemma clampWeight_mem (w : ℚ) :
    weightFloor ≤ clampWeight w ∧ clampWeight w ≤ weightCeiling := by
  unfold clampWeight
  refine ⟨le_max_left _ _, max_le ?_ (min_le_left _ _)⟩
  rw [weightFloor, weightCeiling, mkRat_eq_div]
  norm_num

lemma adjust_weight_noop (rid : String) (delta : ℚ) :
    ∀ corpus : List KnowledgeRecord, (∀ r ∈ corpus, r.id ≠ rid) →
      adjust_weight corpus rid delta = corpus := by
  intro corpus
  induction corpus with
  | nil => intro _; rfl
  | cons r rs ih =>
      intro h
      have h1 : r.id ≠ rid := h r (List.mem_cons_self r rs)
      have h2 := ih (fun x hx => h x (List.mem_cons_of_mem r hx))
      simp only [adjust_weight, List.map_cons, if_neg h1] at h2 ⊢
      rw [h2]

lemma mem_adjust_weight_bounds (corpus : List KnowledgeRecord) (rid : String)
    (d : ℚ) (r : KnowledgeRecord) (hr : r ∈ adjust_weight corpus rid d)
    (hid : r.id = rid) :
    weightFloor ≤ r.weight ∧ r.weight ≤ weightCeiling := by
  unfold adjust_weight at hr
  obtain ⟨r0, hr0, heq⟩ := List.mem_map.mp hr
  by_cases h : r0.id = rid
  · rw [if_pos h] at heq
    rw [← heq]
    simpa using clampWeight_mem (r0.weight + d)
  · rw [if_neg h] at heq
    rw [← heq] at hid
    exact absurd hid h

lemma foldl_adjust_weight_bounds (rid : String) :
    ∀ deltas : List ℚ, deltas ≠ [] →
      ∀ (corpus : List KnowledgeRecord) (r : KnowledgeRecord),
        r ∈ deltas.foldl (fun c d => adjust_weight c rid d) corpus →
        r.id = rid → weightFloor ≤ r.weight ∧ r.weight ≤ weightCeiling := by
  intro deltas
  induction deltas with
  | nil => intro h; exact absurd rfl h
  | cons d ds ih =>
      intro _ corpus r hr hid
      cases ds with
      | nil =>
          simp only [List.foldl_cons, List.foldl_nil] at hr
          exact mem_adjust_weight_bounds _ _ _ _ hr hid
      | cons d2 ds2 =>
          simp only [List.foldl_cons] at hr
          exact ih (List.cons_ne_nil d2 ds2) _ r
            (by simpa only [List.foldl_cons] using hr) hid

lemma candLE_implies_tie {a b : Candidate} (h : candLE a b) :
    tieBreakOrdered a b := by
  rcases h with h1 | ⟨h1, h2 | ⟨h2a, h2b⟩⟩
  · exact ⟨h1.le, fun heq => absurd heq (ne_of_lt h1)⟩
  · exact ⟨le_of_eq h1, fun _ => ⟨h2.le, fun heq2 => absurd heq2 (ne_of_lt h2)⟩⟩
  · exact ⟨le_of_eq h1, fun _ => ⟨le_of_eq h2a, fun _ => h2b⟩⟩

/-! ## Claim theorems -/

/-- C1: for every non-empty query whose top retrieved candidate scores at
or above the high tier threshold (0.75), `answer` returns a
`direct_lookup` result whose text is that record's `answer_text`
verbatim, whose confidence is the scorer's output, and whose
`source_record_id` is that record's id. -/
theorem answer_high_confidence_direct (llm : ModelCall)
    (score : String → KnowledgeRecord → ℚ) (corpus : List KnowledgeRecord)
    (query : String) (top : Candidate) (rest : List Candidate)
    (hq : trimmed query ≠ "")
    (hs : searchRanked score corpus query 3 = top :: rest)
    (hc : highThreshold ≤
      normalize top.raw_score (trimmed query).length
        top.record.answer_text.length) :
    answer llm score corpus query =
      Except.ok { text := top.record.answer_text,
                  confidence := normalize top.raw_score (trimmed query).length
                    top.record.answer_text.length,
                  method := Method.direct_lookup,
                  source_record_id := some top.record.id } := by
  unfold answer
  rw [if_neg hq, hs]
  show answerTop llm query top = _
  unfold answerTop
  unfold selectByTier
  rw [tierOf_eq_high hc]

/-- Witness for C1 at the spec's admission-requirements scenario. -/
theorem answer_high_confidence_direct_witness :
    trimmed "admission requirements" ≠ "" ∧
    answer (fun _ _ => some "ignored") (fun _ _ => (10:ℚ)) [recAdm]
        "admission requirements" =
      Except.ok ⟨"Submit transcripts and SAT scores.", 1,
        Method.direct_lookup, some "adm-1"⟩ := by
  constructor
  · decide
  · have h := answer_high_confidence_direct (fun _ _ => some "ignored")
      (fun _ _ => (10:ℚ)) [recAdm] "admission requirements"
      ⟨recAdm, 0, 10⟩ [] (by decide) (by decide) (by decide)
    rw [h]
    decide

/-- C2: every successful result of `answer` carries a `source_record_id`
exactly when its method is not `generative_fallback`; in particular a
query retrieving zero candidates yields a result with no source record
id. -/
theorem answer_source_iff_method (llm : ModelCall)
    (score : String → KnowledgeRecord → ℚ) (corpus : List KnowledgeRecord)
    (query : String) (r : AnswerResult)
    (h : answer llm score corpus query = Except.ok r) :
    (r.source_record_id ≠ none ↔ r.method ≠ Method.generative_fallback) ∧
    (searchRanked score corpus query 3 = [] → r.source_record_id = none) := by
  unfold answer at h
  split at h
  · cases h
  · cases hE : searchRanked score corpus query 3 with
    | nil =>
        rw [hE] at h
        cases hl : llm query none with
        | none =>
            simp only [answerRanked, hl] at h
            exact Except.noConfusion h
        | some t =>
            simp only [answerRanked, hl] at h
            cases h
            simp
    | cons top rest =>
        rw [hE] at h
        unfold answerRanked answerTop at h
        refine ⟨selectByTier_source_iff llm query top _ r h, ?_⟩
        intro h0
        exact absurd h0 (List.cons_ne_nil top rest)

/-- Witness for C2 at the empty-corpus generative-fallback scenario. -/
theorem answer_source_iff_method_witness :
    ((⟨"Hi there!", fallbackConfidence, Method.generative_fallback,
        none⟩ : AnswerResult).source_record_id ≠ none ↔
      (⟨"Hi there!", fallbackConfidence, Method.generative_fallback,
        none⟩ : AnswerResult).method ≠ Method.generative_fallback) ∧
    (searchRanked (fun _ _ => (0:ℚ)) [] "hello" 3 = [] →
      (⟨"Hi there!", fallbackConfidence, Method.generative_fallback,
        none⟩ : AnswerResult).source_record_id = none) :=
  answer_source_iff_method (fun _ _ => some "Hi there!") (fun _ _ => (0:ℚ))
    [] "hello" ⟨"Hi there!", fallbackConfidence, Method.generative_fallback, none⟩
    (by decide)

/-- C3: if the external model call fails, `answer` degrades: with at
least one retrieved candidate it returns that candidate's stored
answer as `direct_lookup` rather than an error, and it fails with
`ServiceUnavailable` exactly when no candidate was retrieved. -/
theorem answer_model_failure_degrades (llm : ModelCall)
    (score : String → KnowledgeRecord → ℚ) (corpus : List KnowledgeRecord)
    (query : String) (hq : trimmed query ≠ "")
    (hm : ∀ c, llm query c = none) :
    (∀ top rest, searchRanked score corpus query 3 = top :: rest →
        answer llm score corpus query = Except.ok
          { text := top.record.answer_text,
            confidence := normalize top.raw_score (trimmed query).length
              top.record.answer_text.length,
            method := Method.direct_lookup,
            source_record_id := some top.record.id }) ∧
    (answer llm score corpus query = Except.error AnswerError.ServiceUnavailable ↔
        searchRanked score corpus query 3 = []) := by
  constructor
  · intro top rest hs
    unfold answer
    rw [if_neg hq, hs]
    show answerTop llm query top = _
    unfold answerTop
    exact selectByTier_model_down llm query top _ (hm _)
  · unfold answer
    rw [if_neg hq]
    cases hE : searchRanked score corpus query 3 with
    | nil => simp [answerRanked, hm]
    | cons top rest =>
        show answerTop llm query top = _ ↔ _
        unfold answerTop
        rw [selectByTier_model_down llm query top _ (hm _)]
        simp

/-- Witness for C3: a medium-tier candidate survives a total model
outage as a direct lookup, and the error case coincides with an empty
retrieval. -/
theorem answer_model_failure_degrades_witness :
    answer (fun _ _ => none) (fun _ _ => (5:ℚ)) [recFee] "fees" =
      Except.ok { text := "Pay online.",
                  confidence := normalize 5 (trimmed "fees").length
                    "Pay online.".length,
                  method := Method.direct_lookup,
                  source_record_id := some "fee-1" } ∧
    (answer (fun _ _ => none) (fun _ _ => (5:ℚ)) [recFee] "fees" =
        Except.error AnswerError.ServiceUnavailable ↔
      searchRanked (fun _ _ => (5:ℚ)) [recFee] "fees" 3 = []) := by
  have h := answer_model_failure_degrades (fun _ _ => none)
    (fun _ _ => (5:ℚ)) [recFee] "fees" (by decide) (fun c => rfl)
  exact ⟨h.1 ⟨recFee, 0, 5⟩ [] (by decide), h.2⟩

/-- C4: a query that is empty or whitespace-only is rejected with
`InvalidQuery`; the result is the same for every scoring function and
every corpus, so the rejection cannot depend on (and happens without)
any search of the index. -/
theorem answer_rejects_blank (llm : ModelCall)
    (score : String → KnowledgeRecord → ℚ) (corpus : List KnowledgeRecord)
    (query : String) (hq : trimmed query = "") :
    answer llm score corpus query = Except.error AnswerError.InvalidQuery := by
  unfold answer
  rw [if_pos hq]

/-- Witness for C4 at the whitespace-only query of the spec scenario. -/
theorem answer_rejects_blank_witness :
    trimmed "   " = "" ∧
    answer (fun _ _ => some "x") (fun _ _ => (0:ℚ)) [recFee] "   " =
      Except.error AnswerError.InvalidQuery :=
  ⟨by decide, answer_rejects_blank (fun _ _ => some "x") (fun _ _ => (0:ℚ))
    [recFee] "   " (by decide)⟩

/-- C5: `normalize` always lands in [0, 1], is monotone in the raw score
for a fixed query/context, maps any raw score above the configured
ceiling to exactly 1 and any raw score below the configured floor to
exactly 0; determinism is inherent in it being a function. -/
theorem normalize_contract (r : ℚ) (q m : Nat) :
    (0 ≤ normalize r q m ∧ normalize r q m ≤ 1) ∧
    (∀ r2, r2 < r → normalize r2 q m ≤ normalize r q m) ∧
    (scoreCeiling < r → normalize r q m = 1) ∧
    (r < scoreFloor → normalize r q m = 0) := by
  refine ⟨⟨normalize_nonneg r q m, normalize_le_one r q m⟩,
    fun r2 h => normalize_mono q m h.le, fun h => ?_, fun h => ?_⟩
  · unfold normalize
    rw [if_pos h.le]
  · unfold normalize
    rw [if_neg, if_pos h.le]
    rw [scoreFloor] at h
    rw [scoreCeiling]
    intro hc
    linarith

/-- Witness for C5 at concrete scores 12, 3 and -1. -/
theorem normalize_contract_witness :
    (0 ≤ normalize 12 1 500 ∧ normalize 12 1 500 ≤ 1) ∧
    normalize 3 1 500 ≤ normalize 12 1 500 ∧
    normalize 12 1 500 = 1 ∧
    normalize (-1) 1 500 = 0 :=
  ⟨(normalize_contract 12 1 500).1,
    (normalize_contract 12 1 500).2.1 3 (by norm_num),
    (normalize_contract 12 1 500).2.2.1 (by rw [scoreCeiling]; norm_num),
    (normalize_contract (-1) 1 500).2.2.2 (by rw [scoreFloor]; norm_num)⟩

/-- C6: `adjust_weight` is a no-op on an unknown record id, and after any
non-empty sequence of adjustments — in particular all-positive or
all-negative ones — the adjusted record's weight lies in the clamp band
[0.1, 10]. -/
theorem adjust_weight_contract :
    (∀ (corpus : List KnowledgeRecord) (rid : String) (delta : ℚ),
        (∀ r ∈ corpus, r.id ≠ rid) → adjust_weight corpus rid delta = corpus) ∧
    (∀ (rid : String) (deltas : List ℚ) (corpus : List KnowledgeRecord)
        (r : KnowledgeRecord), deltas ≠ [] →
        r ∈ deltas.foldl (fun c d => adjust_weight c rid d) corpus →
        r.id = rid → weightFloor ≤ r.weight ∧ r.weight ≤ weightCeiling) :=
  ⟨fun corpus rid delta h => adjust_weight_noop rid delta corpus h,
   fun rid deltas corpus r hne hr hid =>
     foldl_adjust_weight_bounds rid deltas hne corpus r hr hid⟩

/-- Witness for C6: an unknown id leaves the corpus untouched, and two
successive +5 adjustments starting from weight 1 stop at the ceiling
10. -/
theorem adjust_weight_contract_witness :
    adjust_weight [⟨"a", "q", "ans", "cat", 1⟩] "zzz" 5 =
      [⟨"a", "q", "ans", "cat", 1⟩] ∧
    (weightFloor ≤ (⟨"a", "q", "ans", "cat", (10:ℚ)⟩ : KnowledgeRecord).weight ∧
      (⟨"a", "q", "ans", "cat", (10:ℚ)⟩ : KnowledgeRecord).weight ≤
        weightCeiling) := by
  constructor
  · exact adjust_weight_contract.1 _ "zzz" 5 (by decide)
  · refine adjust_weight_contract.2 "a" [5, 5] [⟨"a", "q", "ans", "cat", 1⟩]
      ⟨"a", "q", "ans", "cat", 10⟩ (List.cons_ne_nil 5 [5]) ?_ rfl
    have h : List.foldl (fun c d => adjust_weight c "a" d)
        [(⟨"a", "q", "ans", "cat", 1⟩ : KnowledgeRecord)] [5, 5] =
        [⟨"a", "q", "ans", "cat", (10:ℚ)⟩] := by
      simp only [List.foldl_cons, List.foldl_nil]
      norm_num [adjust_weight, clampWeight, weightFloor, weightCeiling,
        mkRat_eq_div]
    rw [h]
    exact List.mem_singleton.mpr rfl

/-- C7: for a valid call (`k ≥ 1`, non-blank query) `search` succeeds and
returns at most `k` candidates ordered highest raw score first with the
deterministic weight/recency tie-break, leaving the index itself
unchanged (pure read). -/
theorem search_contract (score : String → KnowledgeRecord → ℚ)
    (corpus : List KnowledgeRecord) (query : String) (k : Nat)
    (hk : 1 ≤ k) (hq : trimmed query ≠ "") :
    search score corpus query k = Except.ok (searchRanked score corpus query k) ∧
    (searchRanked score corpus query k).length ≤ k ∧
    List.Pairwise tieBreakOrdered (searchRanked score corpus query k) ∧
    searchSt score ⟨corpus⟩ query k =
      (Except.ok (searchRanked score corpus query k), ⟨corpus⟩) := by
  have hok : search score corpus query k =
      Except.ok (searchRanked score corpus query k) := by
    unfold search
    rw [if_neg hq]
  refine ⟨hok, ?_, ?_, ?_⟩
  · unfold searchRanked
    rw [List.length_take]
    exact min_le_left _ _
  · unfold searchRanked
    have hs := List.sorted_insertionSort candLE (candidatesOf score corpus query)
    have hp : List.Pairwise tieBreakOrdered
        (List.insertionSort candLE (candidatesOf score corpus query)) :=
      hs.imp (fun h => candLE_implies_tie h)
    exact hp.sublist (List.take_sublist _ _)
  · unfold searchSt
    rw [hok]

/-- Witness for C7 on a one-record index with `k = 1`. -/
theorem search_contract_witness :
    search (fun _ _ => (1:ℚ)) [recAdm] "hi" 1 =
      Except.ok (searchRanked (fun _ _ => (1:ℚ)) [recAdm] "hi" 1) ∧
    (searchRanked (fun _ _ => (1:ℚ)) [recAdm] "hi" 1).length ≤ 1 ∧
    List.Pairwise tieBreakOrdered
      (searchRanked (fun _ _ => (1:ℚ)) [recAdm] "hi" 1) ∧
    searchSt (fun _ _ => (1:ℚ)) ⟨[recAdm]⟩ "hi" 1 =
      (Except.ok (searchRanked (fun _ _ => (1:ℚ)) [recAdm] "hi" 1),
        ⟨[recAdm]⟩) :=
  search_contract (fun _ _ => (1:ℚ)) [recAdm] "hi" 1 le_rfl (by decide)

/-- C8: feedback recording is total and never fails the caller: when the
event resolves to no knowledge record the corpus is returned unchanged
(no weight altered), and in every case the set of record ids is
preserved. -/
theorem record_unresolved_noop :
    (∀ (corpus : List KnowledgeRecord) (e : FeedbackEvent),
        resolveRecordId corpus e = none → record corpus e = corpus) ∧
    (∀ (corpus : List KnowledgeRecord) (e : FeedbackEvent),
        (record corpus e).map (fun r => r.id) = corpus.map (fun r => r.id)) := by
  have hids : ∀ (corpus : List KnowledgeRecord) (rid : String) (d : ℚ),
      (adjust_weight corpus rid d).map (fun r => r.id) =
        corpus.map (fun r => r.id) := by
    intro corpus rid d
    unfold adjust_weight
    rw [List.map_map]
    apply List.map_congr_left
    intro r _
    by_cases h : r.id = rid
    · simp [h]
    · simp [h]
  constructor
  · intro corpus e h
    unfold record
    rw [h]
  · intro corpus e
    unfold record
    cases hres : resolveRecordId corpus e with
    | none => rfl
    | some rid => exact hids corpus rid _

/-- Witness for C8 at an event whose answer text matches no record. -/
theorem record_unresolved_noop_witness :
    record [recFee] ⟨"No such answer.", "q?", Rating.positive, 0⟩ = [recFee] ∧
    (record [recFee] ⟨"No such answer.", "q?", Rating.positive, 0⟩).map
        (fun r => r.id) =
      [recFee].map (fun r => r.id) :=
  ⟨record_unresolved_noop.1 [recFee] ⟨"No such answer.", "q?", Rating.positive, 0⟩
      (by decide),
    record_unresolved_noop.2 [recFee] ⟨"No such answer.", "q?", Rating.positive, 0⟩⟩

/-- C10: the session counters never decrease under `handleFeedback`; a
like click adds exactly 1 to `positiveFeedback` and leaves
`negativeFeedback` unchanged, a dislike click adds exactly 1 to
`negativeFeedback` and leaves `positiveFeedback` unchanged — also when
the click changes an earlier rating of the same message, since the
update is unconditional. -/
theorem handleFeedback_counters :
    ∀ (s : ChatSession) (i : Nat) (t : FbRating),
      s.stats.positiveFeedback ≤ (handleFeedback s i t).stats.positiveFeedback ∧
      s.stats.negativeFeedback ≤ (handleFeedback s i t).stats.negativeFeedback ∧
      (handleFeedback s i FbRating.like).stats.positiveFeedback =
        s.stats.positiveFeedback + 1 ∧
      (handleFeedback s i FbRating.like).stats.negativeFeedback =
        s.stats.negativeFeedback ∧
      (handleFeedback s i FbRating.dislike).stats.negativeFeedback =
        s.stats.negativeFeedback + 1 ∧
      (handleFeedback s i FbRating.dislike).stats.positiveFeedback =
        s.stats.positiveFeedback := by
  intro s i t
  unfold handleFeedback
  cases t <;> simp

end HelpDesk
